import Mathlib

/-!
Shallow embedding of src/src/crypto.rs from sigstore-rs.

The module under verification is the cosign trust core: the certificate
trust validator (verify_certificate_can_be_trusted and its sub-checks),
the raw signature verification primitive (verify_signature), and the key
loading helpers (new_verification_key, new_verification_key_from_public_key_der,
extract_public_key_from_pem_cert).

External collaborators (the x509_parser crate, the p256/ecdsa crates and
base64 decoding) are abstracted as parameters: the embedding keeps the
control flow and the error mapping of crypto.rs exact, while the parsing
and elliptic-curve primitives themselves are uninterpreted functions supplied to
each definition.  The ASN1Time values compared in crypto.rs are modelled
as Int Unix-epoch seconds, matching ASN1Time::from_timestamp and the order
used by the comparisons in the source.
-/

namespace Sigstore

/-- Raw byte strings (DER blobs, messages, decoded signatures). -/
abbrev Bytes := List Nat

/-- Raw SubjectPublicKeyInfo of the issuing CA, as handed to verify_issuer. -/
abbrev SubjectPublicKeyInfo := Bytes

/-- Model of the x509_parser KeyUsage value: only the digital_signature bit
is inspected by crypto.rs. -/
structure KeyUsage where
  digital_signature : Bool
deriving Repr, DecidableEq

/-- Model of the x509_parser ExtendedKeyUsage value: only the code_signing
flag is inspected by crypto.rs. -/
structure ExtendedKeyUsage where
  code_signing : Bool
deriving Repr, DecidableEq

/-- The certificate validity window, with not_before and not_after as
Unix-epoch seconds. -/
structure Validity where
  not_before : Int
  not_after : Int
deriving Repr, DecidableEq

/-- The fields of the to-be-signed certificate body that crypto.rs reads:
key_usage, extended_key_usage and subject_alternative_name each return an
optional (critical, value) pair in x509_parser; the SAN value itself is
never inspected, only its presence, so it is modelled as Unit. -/
structure TbsCertificate where
  key_usage : Option (Bool × KeyUsage)
  extended_key_usage : Option (Bool × ExtendedKeyUsage)
  subject_alternative_name : Option (Bool × Unit)
  validity : Validity

/-- Model of a parsed X509Certificate.  The field signature_verifies_with
abstracts the external x509_parser method X509Certificate::verify_signature:
it records, for each candidate issuer SubjectPublicKeyInfo, whether the
issuer signature embedded in the certificate cryptographically verifies
against that key. -/
structure X509Certificate where
  tbs_certificate : TbsCertificate
  signature_verifies_with : SubjectPublicKeyInfo → Bool

/-- The validity() accessor of x509_parser, returning the window of the
to-be-signed body. -/
def X509Certificate.validity (c : X509Certificate) : Validity :=
  c.tbs_certificate.validity

/-- The SigstoreError variants reachable from crypto.rs.  Payloads that the
source fills from external library errors or from rfc2822 formatting are
either dropped or replaced by the underlying timestamp value; this keeps
each variant a distinct tag carrying the data the checks actually computed. -/
inductive SigstoreError where
  | InvalidKeyFormat (error : String)
  | Base64DecodeError
  | EcdsaError
  | X509Error
  | CertificateParseError
  | CertificateWithoutDigitalSignatureKeyUsage
  | CertificateWithoutCodeSigningKeyUsage
  | CertificateWithoutSubjectAlternativeName
  | CertificateValidityError (not_before : Int)
  | CertificateExpiredBeforeSignaturesSubmittedToRekor
      (integrated_time : Int) (not_before : Int)
  | CertificateIssuedAfterSignaturesSubmittedToRekor
      (integrated_time : Int) (not_after : Int)
deriving Repr, DecidableEq

/-- The Result alias of the crate, specialised to SigstoreError. -/
abbrev Result (α : Type) := Except SigstoreError α

/-- verify_issuer: certificate.verify_signature(Some(ca_issuer_public_key))?.
The external check is the signature_verifies_with field; a failure of the
x509_parser call is converted by the question-mark operator into the
X509Error variant (as witnessed by the verify_cert_issuer_failure test). -/
def verify_issuer (certificate : X509Certificate)
    (ca_issuer_public_key : SubjectPublicKeyInfo) : Result Unit :=
  if certificate.signature_verifies_with ca_issuer_public_key then
    Except.ok ()
  else
    Except.error SigstoreError.X509Error

/-- verify_certificate_key_usages: key_usage() must be present with the
digital_signature bit set (else CertificateWithoutDigitalSignatureKeyUsage),
then extended_key_usage() must be present with code_signing set (else
CertificateWithoutCodeSigningKeyUsage). -/
def verify_certificate_key_usages (certificate : X509Certificate) : Result Unit :=
  match certificate.tbs_certificate.key_usage with
  | none => Except.error SigstoreError.CertificateWithoutDigitalSignatureKeyUsage
  | some (_critical, key_usage) =>
    if !key_usage.digital_signature then
      Except.error SigstoreError.CertificateWithoutDigitalSignatureKeyUsage
    else
      match certificate.tbs_certificate.extended_key_usage with
      | none => Except.error SigstoreError.CertificateWithoutCodeSigningKeyUsage
      | some (_critical, ext_key_usage) =>
        if !ext_key_usage.code_signing then
          Except.error SigstoreError.CertificateWithoutCodeSigningKeyUsage
        else
          Except.ok ()

/-- verify_certificate_has_san: the subject_alternative_name extension must
be present; its contents are not examined. -/
def verify_certificate_has_san (certificate : X509Certificate) : Result Unit :=
  match certificate.tbs_certificate.subject_alternative_name with
  | none => Except.error SigstoreError.CertificateWithoutSubjectAlternativeName
  | some (_critical, _subject_alternative_name) => Except.ok ()

/-- verify_certificate_validity: the source reads ASN1Time::now() once and
rejects with CertificateValidityError only when now < not_before.  The
single clock reading is the explicit parameter now; no comparison against
not_after exists. -/
def verify_certificate_validity (certificate : X509Certificate)
    (now : Int) : Result Unit :=
  let validity := certificate.validity
  if now < validity.not_before then
    Except.error (SigstoreError.CertificateValidityError validity.not_before)
  else
    Except.ok ()

/-- verify_certificate_expiration: the integrated time (converted by
ASN1Time::from_timestamp, which is the identity on epoch seconds here) must
lie within the validity window, both bounds inclusive; below not_before and
above not_after give the two distinct Rekor errors. -/
def verify_certificate_expiration (certificate : X509Certificate)
    (integrated_time : Int) : Result Unit :=
  let it : Int := integrated_time
  let validity := certificate.validity
  if it < validity.not_before then
    Except.error (SigstoreError.CertificateExpiredBeforeSignaturesSubmittedToRekor
      it validity.not_before)
  else if it > validity.not_after then
    Except.error (SigstoreError.CertificateIssuedAfterSignaturesSubmittedToRekor
      it validity.not_after)
  else
    Except.ok ()

/-- verify_certificate_can_be_trusted: the five question-mark calls of the
source, in source order, each propagating the first error.  The clock
reading made inside verify_certificate_validity is the parameter now. -/
def verify_certificate_can_be_trusted (certificate : X509Certificate)
    (ca_issuer_public_key : SubjectPublicKeyInfo) (integrated_time : Int)
    (now : Int) : Result Unit :=
  match verify_issuer certificate ca_issuer_public_key with
  | Except.error e => Except.error e
  | Except.ok () =>
    match verify_certificate_key_usages certificate with
    | Except.error e => Except.error e
    | Except.ok () =>
      match verify_certificate_has_san certificate with
      | Except.error e => Except.error e
      | Except.ok () =>
        match verify_certificate_validity certificate now with
        | Except.error e => Except.error e
        | Except.ok () =>
          match verify_certificate_expiration certificate integrated_time with
          | Except.error e => Except.error e
          | Except.ok () => Except.ok ()

/-- The external cryptographic primitives used by verify_signature: base64
decoding (base64::decode; the error payload of a failed decode is external
and dropped), DER parsing of an ECDSA P-256 signature (Signature::from_der)
and ECDSA verification over a message (VerifyingKey::verify, which hashes
with SHA-256 internally).  Key and Sig are the abstract external key and
parsed-signature types. -/
structure EcdsaOps (Key Sig : Type) where
  base64_decode : String → Option Bytes
  signature_from_der : Bytes → Option Sig
  verify : Key → Bytes → Sig → Bool

/-- verify_signature: decode the base64 signature text (a failure is mapped
by the question-mark operator to Base64DecodeError), parse the decoded
bytes as a DER ECDSA signature and then verify it against the message.
Signature::from_der and VerifyingKey::verify both fail with the same Rust
error type (ecdsa::Error), so both failures are converted by the same From
instance into the single EcdsaError variant, as the tests of crypto.rs
witness for the verification step. -/
def verify_signature {Key Sig : Type} (ops : EcdsaOps Key Sig)
    (verification_key : Key) (signature_str : String) (msg : Bytes) :
    Result Unit :=
  match ops.base64_decode signature_str with
  | none => Except.error SigstoreError.Base64DecodeError
  | some signature_raw =>
    match ops.signature_from_der signature_raw with
    | none => Except.error SigstoreError.EcdsaError
    | some signature =>
      if ops.verify verification_key msg signature then
        Except.ok ()
      else
        Except.error SigstoreError.EcdsaError

/-- The external SPKI key parsers of the p256 crate used by the key
loaders: from_public_key_pem and from_public_key_der.  On failure they
return the external error whose to_string the source stores in the
InvalidKeyFormat payload, so the failure case carries a String here. -/
structure KeyParseOps (Key : Type) where
  from_public_key_pem : String → Except String Key
  from_public_key_der : Bytes → Except String Key

/-- new_verification_key: parse PEM-armored SubjectPublicKeyInfo as an
ECDSA P-256 key; every parser failure is mapped by map_err to
InvalidKeyFormat carrying the stringified external error. -/
def new_verification_key {Key : Type} (ops : KeyParseOps Key)
    (contents : String) : Result Key :=
  match ops.from_public_key_pem contents with
  | Except.ok k => Except.ok k
  | Except.error e => Except.error (SigstoreError.InvalidKeyFormat e)

/-- new_verification_key_from_public_key_der: same as new_verification_key
for raw DER-encoded SubjectPublicKeyInfo bytes. -/
def new_verification_key_from_public_key_der {Key : Type} (ops : KeyParseOps Key)
    (bytes : Bytes) : Result Key :=
  match ops.from_public_key_der bytes with
  | Except.ok k => Except.ok k
  | Except.error e => Except.error (SigstoreError.InvalidKeyFormat e)

/-- Model of the x509_parser Pem value: only its contents field (the DER
bytes inside the armor) is read by crypto.rs. -/
structure Pem where
  contents : Bytes
deriving Repr, DecidableEq

/-- The external x509_parser entry points used by
extract_public_key_from_pem_cert: parse_x509_pem, parse_x509_certificate,
and the raw SubjectPublicKeyInfo bytes of a parsed certificate
(res_x509.public_key().raw). -/
structure X509ParseOps (Cert : Type) where
  parse_x509_pem : Bytes → Option Pem
  parse_x509_certificate : Bytes → Option Cert
  public_key_raw : Cert → Bytes

/-- Modelled from the spec: the conversion of x509_parser failures into a
SigstoreError variant lives in errors.rs, which is not among the sources;
the spec names the resulting kind CertificateParseError, so the two
question-mark operators of extract_public_key_from_pem_cert map a parse
failure to that variant here. -/
def certificateParseFailure : SigstoreError :=
  SigstoreError.CertificateParseError

/-- extract_public_key_from_pem_cert: parse the PEM armor, parse the DER
contents as a certificate, and return the raw (unparsed)
SubjectPublicKeyInfo bytes of the parsed certificate. -/
def extract_public_key_from_pem_cert {Cert : Type} (ops : X509ParseOps Cert)
    (cert : Bytes) : Result Bytes :=
  match ops.parse_x509_pem cert with
  | none => Except.error certificateParseFailure
  | some pem =>
    match ops.parse_x509_certificate pem.contents with
    | none => Except.error certificateParseFailure
    | some res_x509 => Except.ok (ops.public_key_raw res_x509)

/-- A clock, as a stream of readings: reading number n returns clock n.
ASN1Time::now() performs one reading and advances the count. -/
def Clock := Nat → Int

/-- verify_certificate_validity with the clock made explicit: the single
ASN1Time::now() call of the source performs exactly one reading.  The
second component is the updated reading count. -/
def verify_certificate_validity_clocked (certificate : X509Certificate)
    (clock : Clock) (reads : Nat) : Result Unit × Nat :=
  let validity := certificate.validity
  let now := clock reads
  (if now < validity.not_before then
    Except.error (SigstoreError.CertificateValidityError validity.not_before)
  else
    Except.ok (), reads + 1)

/-- verify_certificate_can_be_trusted with the clock made explicit: only
the validity check reads the clock, and the reading count is threaded
through the call.  The count starts at zero for each call. -/
def verify_certificate_can_be_trusted_clocked (certificate : X509Certificate)
    (ca_issuer_public_key : SubjectPublicKeyInfo) (integrated_time : Int)
    (clock : Clock) : Result Unit × Nat :=
  match verify_issuer certificate ca_issuer_public_key with
  | Except.error e => (Except.error e, 0)
  | Except.ok () =>
    match verify_certificate_key_usages certificate with
    | Except.error e => (Except.error e, 0)
    | Except.ok () =>
      match verify_certificate_has_san certificate with
      | Except.error e => (Except.error e, 0)
      | Except.ok () =>
        match verify_certificate_validity_clocked certificate clock 0 with
        | (Except.error e, reads) => (Except.error e, reads)
        | (Except.ok (), reads) =>
          match verify_certificate_expiration certificate integrated_time with
          | Except.error e => (Except.error e, reads)
          | Except.ok () => (Except.ok (), reads)

/-- Modelled from the spec: the p256 SPKI parsers behind FromPublicKey are
external to the sources; per the spec they succeed exactly on well-formed
PEM or DER SubjectPublicKeyInfo for an ECDSA P-256 key (failing on
malformed input, wrong algorithm or wrong curve), captured here by pairing
the parser functions with the well-formedness predicates wf_pem and
wf_der. -/
structure SpkiParserSpec {Key : Type} (ops : KeyParseOps Key)
    (wf_pem : String → Bool) (wf_der : Bytes → Bool) : Prop where
  pem_ok_iff : ∀ s, (∃ k, ops.from_public_key_pem s = Except.ok k) ↔ wf_pem s = true
  der_ok_iff : ∀ b, (∃ k, ops.from_public_key_der b = Except.ok k) ↔ wf_der b = true

/-- A concrete certificate satisfying every check, used to evaluate the
trust decision at explicit inputs: good usages, a SAN, a trusted issuer
signature, and the validity window from 0 to 10. -/
def certOk : X509Certificate where
  tbs_certificate :=
    { key_usage := some (true, { digital_signature := true })
      extended_key_usage := some (false, { code_signing := true })
      subject_alternative_name := some (true, ())
      validity := { not_before := 0, not_after := 10 } }
  signature_verifies_with := fun _ => true

/-- A concrete certificate with valid issuer and usages but no SAN, and a
window that both the validity check and the signing-window check would
reject: used to show that the SAN failure is the one reported. -/
def certNoSan : X509Certificate where
  tbs_certificate :=
    { key_usage := some (true, { digital_signature := true })
      extended_key_usage := some (false, { code_signing := true })
      subject_alternative_name := none
      validity := { not_before := 0, not_after := 10 } }
  signature_verifies_with := fun _ => true

/-- Concrete external cryptographic primitives used to evaluate
verify_signature: the text bad-der decodes to bytes that are not a valid
DER signature, bad-sig decodes and parses but fails cryptographic
verification, good verifies, and anything else fails base64 decoding. -/
def opsEval : EcdsaOps Nat Nat where
  base64_decode := fun s =>
    if s = "bad-der" then some [0]
    else if s = "bad-sig" then some [1]
    else if s = "good" then some [2]
    else none
  signature_from_der := fun b =>
    if b = [1] then some 1 else if b = [2] then some 2 else none
  verify := fun _ _ sig => sig == 2

/-- Concrete SPKI parse capability used to evaluate the key loaders: it
accepts one PEM text and one DER byte string. -/
def kopsEval : KeyParseOps Nat where
  from_public_key_pem := fun s =>
    if s = "PEM-KEY" then Except.ok 1 else Except.error "bad pem"
  from_public_key_der := fun b =>
    if b = [9] then Except.ok 2 else Except.error "bad der"

/-- The well-formed PEM inputs of kopsEval. -/
def wfPemEval : String → Bool := fun s => s == "PEM-KEY"

/-- The well-formed DER inputs of kopsEval. -/
def wfDerEval : Bytes → Bool := fun b => b == [9]

/-- Concrete x509 parse capability used to evaluate the certificate key
extraction: the byte string [1] armors DER contents [2], which parse to the
certificate 5 whose raw SubjectPublicKeyInfo bytes are [7, 7]. -/
def xopsEval : X509ParseOps Nat where
  parse_x509_pem := fun b => if b = [1] then some ⟨[2]⟩ else none
  parse_x509_certificate := fun b => if b = [2] then some 5 else none
  public_key_raw := fun _ => [7, 7]

/-- Concrete SPKI parse capability whose PEM parser rejects text that does
not armor a bare public key, while its DER parser accepts the raw SPKI
bytes [7, 7] extracted from the certificate of xopsEval. -/
def kopsCert : KeyParseOps Nat where
  from_public_key_pem := fun s =>
    if s = "PEM-KEY" then Except.ok 1 else Except.error "not an SPKI"
  from_public_key_der := fun b =>
    if b = [7, 7] then Except.ok 3 else Except.error "bad der"

deriving instance DecidableEq for Except

/-- The issuer check succeeds exactly when the issuer signature verifies
against the supplied CA key. -/
theorem verify_issuer_ok_iff (c : X509Certificate) (ca : SubjectPublicKeyInfo) :
    verify_issuer c ca = Except.ok () ↔ c.signature_verifies_with ca = true := by
  unfold verify_issuer
  cases h : c.signature_verifies_with ca <;> simp [h]

/-- The key-usage check succeeds exactly when the key-usage extension is
present with the digital-signature bit set and the extended-key-usage
extension is present with code signing. -/
theorem verify_certificate_key_usages_ok_iff (c : X509Certificate) :
    verify_certificate_key_usages c = Except.ok () ↔
      ((∃ crit ku, c.tbs_certificate.key_usage = some (crit, ku)
          ∧ ku.digital_signature = true)
       ∧ (∃ crit eku, c.tbs_certificate.extended_key_usage = some (crit, eku)
          ∧ eku.code_signing = true)) := by
  unfold verify_certificate_key_usages
  rcases hku : c.tbs_certificate.key_usage with _ | ⟨crit, ku⟩
  · simp [hku]
  · cases hds : ku.digital_signature
    · simp [hku, hds]
    · rcases heku : c.tbs_certificate.extended_key_usage with _ | ⟨crit2, eku⟩
      · simp [hku, heku, hds]
      · cases hcs : eku.code_signing
        · simp [hku, heku, hds, hcs]
        · constructor
          · intro _
            exact ⟨⟨crit, ku, rfl, hds⟩, ⟨crit2, eku, rfl, hcs⟩⟩
          · intro _
            simp [hku, heku, hds, hcs]

/-- The SAN check succeeds exactly when a subject-alternative-name
extension is present. -/
theorem verify_certificate_has_san_ok_iff (c : X509Certificate) :
    verify_certificate_has_san c = Except.ok () ↔
      ∃ san, c.tbs_certificate.subject_alternative_name = some san := by
  unfold verify_certificate_has_san
  rcases h : c.tbs_certificate.subject_alternative_name with _ | san <;> simp [h]

/-- The validity check succeeds exactly when the supplied current time has
reached the not-before bound. -/
theorem verify_certificate_validity_ok_iff (c : X509Certificate) (now : Int) :
    verify_certificate_validity c now = Except.ok () ↔
      c.validity.not_before ≤ now := by
  constructor
  · intro h
    by_contra hgt
    have hlt : now < c.validity.not_before := by omega
    simp [verify_certificate_validity, hlt] at h
  · intro hle
    have hnlt : ¬ now < c.validity.not_before := by omega
    simp [verify_certificate_validity, hnlt]

/-- The signing-window check succeeds exactly when the integrated time lies
within the validity window, bounds inclusive. -/
theorem verify_certificate_expiration_ok_iff (c : X509Certificate) (it : Int) :
    verify_certificate_expiration c it = Except.ok () ↔
      (c.validity.not_before ≤ it ∧ it ≤ c.validity.not_after) := by
  constructor
  · intro h
    by_cases h1 : it < c.validity.not_before
    · simp [verify_certificate_expiration, h1] at h
    · by_cases h2 : it > c.validity.not_after
      · simp [verify_certificate_expiration, h1, h2] at h
      · constructor <;> omega
  · intro h
    obtain ⟨h1, h2⟩ := h
    have h3 : ¬ it < c.validity.not_before := by omega
    have h4 : ¬ it > c.validity.not_after := by omega
    simp [verify_certificate_expiration, h3, h4]

/-- The trust decision succeeds exactly when its five sub-checks succeed. -/
theorem verify_certificate_can_be_trusted_ok_iff (c : X509Certificate)
    (ca : SubjectPublicKeyInfo) (it : Int) (now : Int) :
    verify_certificate_can_be_trusted c ca it now = Except.ok () ↔
      (verify_issuer c ca = Except.ok ()
       ∧ verify_certificate_key_usages c = Except.ok ()
       ∧ verify_certificate_has_san c = Except.ok ()
       ∧ verify_certificate_validity c now = Except.ok ()
       ∧ verify_certificate_expiration c it = Except.ok ()) := by
  unfold verify_certificate_can_be_trusted
  rcases h1 : verify_issuer c ca with e | ⟨⟩
  · simp [h1]
  · rcases h2 : verify_certificate_key_usages c with e | ⟨⟩
    · simp [h1, h2]
    · rcases h3 : verify_certificate_has_san c with e | ⟨⟩
      · simp [h1, h2, h3]
      · rcases h4 : verify_certificate_validity c now with e | ⟨⟩
        · simp [h1, h2, h3, h4]
        · rcases h5 : verify_certificate_expiration c it with e | ⟨⟩ <;>
            simp [h1, h2, h3, h4, h5]

/-- The clocked validity check performs one reading and agrees with the
parameterised validity check applied to that reading. -/
theorem verify_certificate_validity_clocked_eq (c : X509Certificate)
    (clock : Clock) (reads : Nat) :
    verify_certificate_validity_clocked c clock reads =
      (verify_certificate_validity c (clock reads), reads + 1) := rfl

/-- The clocked trust decision returns the result of the parameterised
trust decision applied to the first clock reading, and its reading count. -/
theorem verify_certificate_can_be_trusted_clocked_fst (c : X509Certificate)
    (ca : SubjectPublicKeyInfo) (it : Int) (clock : Clock) :
    (verify_certificate_can_be_trusted_clocked c ca it clock).1 =
      verify_certificate_can_be_trusted c ca it (clock 0) := by
  unfold verify_certificate_can_be_trusted_clocked verify_certificate_can_be_trusted
  rw [verify_certificate_validity_clocked_eq]
  rcases h1 : verify_issuer c ca with e | ⟨⟩ <;>
    rcases h2 : verify_certificate_key_usages c with e2 | ⟨⟩ <;>
      rcases h3 : verify_certificate_has_san c with e3 | ⟨⟩ <;>
        rcases h4 : verify_certificate_validity c (clock 0) with e4 | ⟨⟩ <;>
          rcases h5 : verify_certificate_expiration c it with e5 | ⟨⟩ <;>
            simp [h1, h2, h3, h4, h5]

/-- The clocked trust decision never performs more than one clock reading. -/
theorem verify_certificate_can_be_trusted_clocked_reads_le (c : X509Certificate)
    (ca : SubjectPublicKeyInfo) (it : Int) (clock : Clock) :
    (verify_certificate_can_be_trusted_clocked c ca it clock).2 ≤ 1 := by
  unfold verify_certificate_can_be_trusted_clocked
  rw [verify_certificate_validity_clocked_eq]
  rcases h1 : verify_issuer c ca with e | ⟨⟩ <;>
    rcases h2 : verify_certificate_key_usages c with e2 | ⟨⟩ <;>
      rcases h3 : verify_certificate_has_san c with e3 | ⟨⟩ <;>
        rcases h4 : verify_certificate_validity c (clock 0) with e4 | ⟨⟩ <;>
          rcases h5 : verify_certificate_expiration c it with e5 | ⟨⟩ <;>
            simp [h1, h2, h3, h4, h5]

/-- C1: verify_certificate_can_be_trusted returns success if and only if
all six conditions hold for the given certificate, CA public key,
integrated time and current time: (a) the issuer signature verifies against
the claimed CA key, (b) the key-usage extension is present with the
digital-signature bit set, (c) the extended-key-usage extension is present
with code signing, (d) a subject-alternative-name extension is present,
(e) the current time is not before not_before, and (f) the integrated time
lies within the inclusive window from not_before to not_after. -/
theorem C1_trusted_iff_six_conditions (c : X509Certificate)
    (ca : SubjectPublicKeyInfo) (it : Int) (now : Int) :
    verify_certificate_can_be_trusted c ca it now = Except.ok () ↔
      (c.signature_verifies_with ca = true
       ∧ (∃ crit ku, c.tbs_certificate.key_usage = some (crit, ku)
            ∧ ku.digital_signature = true)
       ∧ (∃ crit eku, c.tbs_certificate.extended_key_usage = some (crit, eku)
            ∧ eku.code_signing = true)
       ∧ (∃ san, c.tbs_certificate.subject_alternative_name = some san)
       ∧ c.validity.not_before ≤ now
       ∧ (c.validity.not_before ≤ it ∧ it ≤ c.validity.not_after)) := by
  rw [verify_certificate_can_be_trusted_ok_iff, verify_issuer_ok_iff,
    verify_certificate_key_usages_ok_iff, verify_certificate_has_san_ok_iff,
    verify_certificate_validity_ok_iff, verify_certificate_expiration_ok_iff]
  tauto

/-- C1 witness: the trust decision accepts a concrete certificate meeting
all six conditions at integrated time 5 and current time 7. -/
theorem C1_witness :
    verify_certificate_can_be_trusted certOk [] 5 7 = Except.ok () :=
  (C1_trusted_iff_six_conditions certOk [] 5 7).mpr
    ⟨rfl, ⟨true, { digital_signature := true }, rfl, rfl⟩,
     ⟨false, { code_signing := true }, rfl, rfl⟩,
     ⟨(true, ()), rfl⟩, by decide, by decide, by decide⟩

/-- C2: no check compares the current time against not_after, so a
certificate is never rejected purely because the current time has passed
not_after: once the current time has reached not_before its exact value is
irrelevant to the trust decision.  The not-yet-valid check fails (with the
CertificateValidityError variant, the NotYetValid of the spec) exactly when
the current time is strictly before not_before, and a current time equal to
not_before passes it. -/
theorem C2_no_not_after_rejection (c : X509Certificate)
    (ca : SubjectPublicKeyInfo) (it : Int) (now now2 : Int) :
    (verify_certificate_validity c now = Except.ok () ↔
       c.validity.not_before ≤ now)
    ∧ (∀ e, verify_certificate_validity c now = Except.error e ↔
        (now < c.validity.not_before
         ∧ e = SigstoreError.CertificateValidityError c.validity.not_before))
    ∧ verify_certificate_validity c c.validity.not_before = Except.ok ()
    ∧ (c.validity.not_before ≤ now → c.validity.not_before ≤ now2 →
        verify_certificate_can_be_trusted c ca it now =
          verify_certificate_can_be_trusted c ca it now2) := by
  refine ⟨verify_certificate_validity_ok_iff c now, fun e => ?_, ?_, fun h1 h2 => ?_⟩
  · by_cases h : now < c.validity.not_before
    · simp only [verify_certificate_validity, h, if_pos, h, true_and]
      constructor
      · intro he
        exact (Except.error.inj he).symm
      · intro he
        rw [he]
    · simp [verify_certificate_validity, h]
  · exact (verify_certificate_validity_ok_iff c _).mpr le_rfl
  · have hv : verify_certificate_validity c now = verify_certificate_validity c now2 := by
      rw [(verify_certificate_validity_ok_iff c now).mpr h1,
        (verify_certificate_validity_ok_iff c now2).mpr h2]
    unfold verify_certificate_can_be_trusted
    rw [hv]

/-- C2 witness: for a concrete certificate valid from 0 to 10 the trust
decision at current time 100 (well past not_after) coincides with the
decision at current time 3, and that common outcome accepts. -/
theorem C2_witness :
    verify_certificate_can_be_trusted certOk [] 5 100 =
      verify_certificate_can_be_trusted certOk [] 5 3 :=
  (C2_no_not_after_rejection certOk [] 5 100 3).2.2.2 (by decide) (by decide)

/-- C3: the checks run in the fixed order issuer signature, key usage,
extended key usage, subject-alternative-name, not-yet-valid, signing
window, short-circuiting: the error of the first failing check is the one
returned, whatever later checks would say; within the key-usage pair the
digital-signature failure precedes the code-signing failure, and within the
signing window the below-not-before failure precedes the
above-not-after failure. -/
theorem C3_first_failure_wins (c : X509Certificate) (ca : SubjectPublicKeyInfo)
    (it : Int) (now : Int) :
    (∀ e, verify_issuer c ca = Except.error e →
       verify_certificate_can_be_trusted c ca it now = Except.error e)
    ∧ (verify_issuer c ca = Except.ok () →
       ∀ e, verify_certificate_key_usages c = Except.error e →
         verify_certificate_can_be_trusted c ca it now = Except.error e)
    ∧ (verify_issuer c ca = Except.ok () →
       verify_certificate_key_usages c = Except.ok () →
       ∀ e, verify_certificate_has_san c = Except.error e →
         verify_certificate_can_be_trusted c ca it now = Except.error e)
    ∧ (verify_issuer c ca = Except.ok () →
       verify_certificate_key_usages c = Except.ok () →
       verify_certificate_has_san c = Except.ok () →
       ∀ e, verify_certificate_validity c now = Except.error e →
         verify_certificate_can_be_trusted c ca it now = Except.error e)
    ∧ (verify_issuer c ca = Except.ok () →
       verify_certificate_key_usages c = Except.ok () →
       verify_certificate_has_san c = Except.ok () →
       verify_certificate_validity c now = Except.ok () →
       ∀ e, verify_certificate_expiration c it = Except.error e →
         verify_certificate_can_be_trusted c ca it now = Except.error e)
    ∧ ((c.tbs_certificate.key_usage = none
        ∨ ∃ crit ku, c.tbs_certificate.key_usage = some (crit, ku)
            ∧ ku.digital_signature = false) →
       verify_certificate_key_usages c =
         Except.error SigstoreError.CertificateWithoutDigitalSignatureKeyUsage)
    ∧ ((∃ crit ku, c.tbs_certificate.key_usage = some (crit, ku)
          ∧ ku.digital_signature = true) →
       (c.tbs_certificate.extended_key_usage = none
        ∨ ∃ crit eku, c.tbs_certificate.extended_key_usage = some (crit, eku)
            ∧ eku.code_signing = false) →
       verify_certificate_key_usages c =
         Except.error SigstoreError.CertificateWithoutCodeSigningKeyUsage)
    ∧ (it < c.validity.not_before →
       verify_certificate_expiration c it =
         Except.error (SigstoreError.CertificateExpiredBeforeSignaturesSubmittedToRekor
           it c.validity.not_before)) := by
  refine ⟨?_, ?_, ?_, ?_, ?_, ?_, ?_, ?_⟩
  · intro e he
    unfold verify_certificate_can_be_trusted
    simp [he]
  · intro h1 e he
    unfold verify_certificate_can_be_trusted
    simp [h1, he]
  · intro h1 h2 e he
    unfold verify_certificate_can_be_trusted
    simp [h1, h2, he]
  · intro h1 h2 h3 e he
    unfold verify_certificate_can_be_trusted
    simp [h1, h2, h3, he]
  · intro h1 h2 h3 h4 e he
    unfold verify_certificate_can_be_trusted
    simp [h1, h2, h3, h4, he]
  · intro h
    rcases h with hnone | ⟨crit, ku, hsome, hds⟩
    · simp [verify_certificate_key_usages, hnone]
    · simp [verify_certificate_key_usages, hsome, hds]
  · intro h1 h2
    rcases h1 with ⟨crit, ku, hsome, hds⟩
    rcases h2 with hnone | ⟨crit2, eku, hsome2, hcs⟩
    · simp [verify_certificate_key_usages, hsome, hds, hnone]
    · simp [verify_certificate_key_usages, hsome, hds, hsome2, hcs]
  · intro hlt
    simp [verify_certificate_expiration, hlt]

/-- C3 witness: on a certificate whose SAN is missing while the later
validity and signing-window checks would also fail, the reported error is
the SAN one, because the checks short-circuit in order. -/
theorem C3_witness :
    verify_certificate_can_be_trusted certNoSan [] 99 (-5) =
      Except.error SigstoreError.CertificateWithoutSubjectAlternativeName :=
  (C3_first_failure_wins certNoSan [] 99 (-5)).2.2.1 (by decide) (by decide)
    SigstoreError.CertificateWithoutSubjectAlternativeName (by decide)

/-- C4: for a certificate with a well-formed validity window, the
signing-window check fails with the SignedBeforeCertValid error
(CertificateExpiredBeforeSignaturesSubmittedToRekor) when the integrated
time is below not_before, fails with the SignedAfterCertExpired error
(CertificateIssuedAfterSignaturesSubmittedToRekor) when it is above
not_after, and passes whenever not_before and not_after bound it
inclusively. -/
theorem C4_signing_window (c : X509Certificate) (it : Int)
    (h : c.validity.not_before ≤ c.validity.not_after) :
    (it < c.validity.not_before →
       verify_certificate_expiration c it =
         Except.error (SigstoreError.CertificateExpiredBeforeSignaturesSubmittedToRekor
           it c.validity.not_before))
    ∧ (c.validity.not_after < it →
       verify_certificate_expiration c it =
         Except.error (SigstoreError.CertificateIssuedAfterSignaturesSubmittedToRekor
           it c.validity.not_after))
    ∧ (c.validity.not_before ≤ it → it ≤ c.validity.not_after →
       verify_certificate_expiration c it = Except.ok ()) := by
  refine ⟨fun h1 => ?_, fun h2 => ?_, fun h3 h4 => ?_⟩
  · simp [verify_certificate_expiration, h1]
  · have h5 : ¬ it < c.validity.not_before := by omega
    simp [verify_certificate_expiration, h5, h2]
  · have h5 : ¬ it < c.validity.not_before := by omega
    have h6 : ¬ it > c.validity.not_after := by omega
    simp [verify_certificate_expiration, h5, h6]

/-- C4 witness: on the concrete window from 0 to 10 the check rejects
integrated time 11 as signed after expiry. -/
theorem C4_witness :
    verify_certificate_expiration certOk 11 =
      Except.error (SigstoreError.CertificateIssuedAfterSignaturesSubmittedToRekor 11 10) :=
  (C4_signing_window certOk 11 (by decide)).2.1 (by decide)

/-- C5 amended: verify_signature fails with Base64DecodeError exactly when
the signature text is not valid base64; otherwise a malformed DER signature
and a failed cryptographic verification BOTH yield the single EcdsaError
tag (the code has no two distinct tags for them); it succeeds exactly when
decoding, DER parsing and verification all succeed; and no error kind other
than Base64DecodeError and EcdsaError is ever produced. -/
theorem C5_signature_error_stages {Key Sig : Type} (ops : EcdsaOps Key Sig)
    (key : Key) (s : String) (m : Bytes) :
    (verify_signature ops key s m = Except.error SigstoreError.Base64DecodeError ↔
       ops.base64_decode s = none)
    ∧ (verify_signature ops key s m = Except.error SigstoreError.EcdsaError ↔
       ∃ raw, ops.base64_decode s = some raw
         ∧ (ops.signature_from_der raw = none
            ∨ ∃ sig, ops.signature_from_der raw = some sig
                ∧ ops.verify key m sig = false))
    ∧ (verify_signature ops key s m = Except.ok () ↔
       ∃ raw sig, ops.base64_decode s = some raw
         ∧ ops.signature_from_der raw = some sig
         ∧ ops.verify key m sig = true)
    ∧ (∀ e, verify_signature ops key s m = Except.error e →
       (e = SigstoreError.Base64DecodeError ∨ e = SigstoreError.EcdsaError)) := by
  unfold verify_signature
  rcases hdec : ops.base64_decode s with _ | raw
  · simp [hdec]
  · rcases hder : ops.signature_from_der raw with _ | sig
    · simp [hdec, hder]
    · cases hv : ops.verify key m sig <;> simp [hdec, hder, hv]

/-- C5 witness: with concrete primitives for which the text good decodes,
parses and verifies, verify_signature succeeds. -/
theorem C5_witness :
    verify_signature opsEval 0 "good" [] = Except.ok () :=
  (C5_signature_error_stages opsEval 0 "good" []).2.2.1.mpr
    ⟨[2], 2, by decide, by decide, by decide⟩

/-- C5 counterexample: at these concrete inputs a DER-format failure
(bad-der decodes to bytes rejected by Signature::from_der) and a
cryptographic-verification failure (bad-sig decodes and parses but fails
verification) return the very same error value EcdsaError, because both
external calls fail with the same Rust error type and are converted by the
same From instance; the claim that the format failure and the verification
failure are distinct tags of the error taxonomy is therefore false on this
code. -/
theorem C5_counterexample :
    verify_signature opsEval 0 "bad-der" [] = Except.error SigstoreError.EcdsaError
    ∧ verify_signature opsEval 0 "bad-sig" [] = Except.error SigstoreError.EcdsaError
    ∧ verify_signature opsEval 0 "bad-der" [] = verify_signature opsEval 0 "bad-sig" []
    ∧ opsEval.base64_decode "bad-der" = some [0]
    ∧ opsEval.signature_from_der [0] = none
    ∧ opsEval.base64_decode "bad-sig" = some [1]
    ∧ opsEval.signature_from_der [1] = some 1
    ∧ opsEval.verify 0 [] 1 = false := by
  refine ⟨by decide, by decide, by decide, by decide, by decide, by decide, by decide, by decide⟩

/-- C6: within a single trust verification the clock is read by the
not-yet-valid check exactly once, the whole verification reads it at most
once, the outcome is the pure function of the inputs and that first
reading (so the reading is a plain parameter and the outcome is
deterministic for fixed inputs including the single reading), and two
clocks agreeing on the first reading give identical outcomes, so two
comparisons can never observe different clock values. -/
theorem C6_single_clock_reading (c : X509Certificate)
    (ca : SubjectPublicKeyInfo) (it : Int) (clock clock2 : Clock) :
    (verify_certificate_validity_clocked c clock 0).2 = 1
    ∧ (verify_certificate_can_be_trusted_clocked c ca it clock).2 ≤ 1
    ∧ (verify_certificate_can_be_trusted_clocked c ca it clock).1 =
        verify_certificate_can_be_trusted c ca it (clock 0)
    ∧ (clock 0 = clock2 0 →
        verify_certificate_can_be_trusted_clocked c ca it clock =
          verify_certificate_can_be_trusted_clocked c ca it clock2) := by
  refine ⟨rfl, verify_certificate_can_be_trusted_clocked_reads_le c ca it clock,
    verify_certificate_can_be_trusted_clocked_fst c ca it clock, fun h => ?_⟩
  unfold verify_certificate_can_be_trusted_clocked
  rw [verify_certificate_validity_clocked_eq, verify_certificate_validity_clocked_eq, h]

/-- C6 witness: two different clocks that agree only on their first reading
give the same outcome on a concrete verification. -/
theorem C6_witness :
    verify_certificate_can_be_trusted_clocked certOk [] 5 (fun _ => 7) =
      verify_certificate_can_be_trusted_clocked certOk [] 5 (fun n => 7 + n) :=
  (C6_single_clock_reading certOk [] 5 (fun _ => 7) (fun n => 7 + n)).2.2.2 (by decide)

/-- C7: under the spec model of the external SPKI parser, each key loader
either returns a key or fails with InvalidKeyFormat; it fails with
InvalidKeyFormat precisely on input the parser rejects (malformed SPKI,
wrong algorithm or wrong curve), and no other error kind is ever
produced. -/
theorem C7_key_loaders_invalid_key_format {Key : Type} (ops : KeyParseOps Key)
    (wf_pem : String → Bool) (wf_der : Bytes → Bool)
    (h : SpkiParserSpec ops wf_pem wf_der) (s : String) (b : Bytes) :
    ((∃ k, new_verification_key ops s = Except.ok k)
      ∨ ∃ msg, new_verification_key ops s =
          Except.error (SigstoreError.InvalidKeyFormat msg))
    ∧ ((∃ msg, new_verification_key ops s =
          Except.error (SigstoreError.InvalidKeyFormat msg)) ↔ wf_pem s = false)
    ∧ (∀ e, new_verification_key ops s = Except.error e →
        ∃ msg, e = SigstoreError.InvalidKeyFormat msg)
    ∧ ((∃ k, new_verification_key_from_public_key_der ops b = Except.ok k)
      ∨ ∃ msg, new_verification_key_from_public_key_der ops b =
          Except.error (SigstoreError.InvalidKeyFormat msg))
    ∧ ((∃ msg, new_verification_key_from_public_key_der ops b =
          Except.error (SigstoreError.InvalidKeyFormat msg)) ↔ wf_der b = false)
    ∧ (∀ e, new_verification_key_from_public_key_der ops b = Except.error e →
        ∃ msg, e = SigstoreError.InvalidKeyFormat msg) := by
  have hpem := h.pem_ok_iff s
  have hder := h.der_ok_iff b
  unfold new_verification_key new_verification_key_from_public_key_der
  rcases hp : ops.from_public_key_pem s with msg | k <;>
    rcases hd : ops.from_public_key_der b with msg2 | k2 <;>
      simp [hp, hd] at hpem hder ⊢ <;>
        simp [hpem, hder]

/-- C7 witness: a concrete parser rejects non-key text and the loader
reports InvalidKeyFormat for it. -/
theorem C7_witness :
    ∃ msg, new_verification_key kopsEval "certificate text" =
      Except.error (SigstoreError.InvalidKeyFormat msg) :=
  ((C7_key_loaders_invalid_key_format kopsEval wfPemEval wfDerEval
      (by constructor
          · intro s
            by_cases hs : s = "PEM-KEY" <;> simp [kopsEval, wfPemEval, hs]
          · intro b
            by_cases hb : b = [9] <;> simp [kopsEval, wfDerEval, hb])
      "certificate text" [9]).2.1).mpr (by decide)

/-- C8: extract_public_key_from_pem_cert returns exactly the raw unparsed
SubjectPublicKeyInfo bytes embedded in a well-formed PEM certificate, and
fails with CertificateParseError on any malformed PEM, DER or certificate
structure; it is a pure Lean function of its input, so it has no side
effects by construction. -/
theorem C8_extract_public_key {Cert : Type} (ops : X509ParseOps Cert)
    (cert : Bytes) :
    (∀ v, extract_public_key_from_pem_cert ops cert = Except.ok v ↔
       ∃ pem c, ops.parse_x509_pem cert = some pem
         ∧ ops.parse_x509_certificate pem.contents = some c
         ∧ v = ops.public_key_raw c)
    ∧ (∀ e, extract_public_key_from_pem_cert ops cert = Except.error e →
       e = SigstoreError.CertificateParseError) := by
  unfold extract_public_key_from_pem_cert certificateParseFailure
  rcases hp : ops.parse_x509_pem cert with _ | pem
  · simp [hp]
  · rcases hc : ops.parse_x509_certificate pem.contents with _ | c <;>
      simp [hp, hc]
    exact fun v => eq_comm

/-- C8 witness: the concrete capability extracts the raw SPKI bytes [7, 7]
from the well-formed certificate input [1]. -/
theorem C8_witness :
    extract_public_key_from_pem_cert xopsEval [1] = Except.ok [7, 7] :=
  ((C8_extract_public_key xopsEval [1]).1 [7, 7]).mpr
    ⟨⟨[2]⟩, 5, by decide, by decide, by decide⟩

/-- C10: PEM text whose armored content is a certificate rather than a bare
SubjectPublicKeyInfo public key is rejected by new_verification_key with
InvalidKeyFormat (the external SPKI parser refuses it, per the spec model),
while the key embedded in the certificate is reachable by extracting the
raw SPKI bytes with extract_public_key_from_pem_cert and loading them with
new_verification_key_from_public_key_der. -/
theorem C10_cert_pem_rejected_by_key_loader {Key Cert : Type}
    (kops : KeyParseOps Key) (xops : X509ParseOps Cert)
    (cert_pem_text : String) (cert_pem_bytes : Bytes) (msg : String)
    (pem : Pem) (c : Cert) (k : Key)
    (hreject : kops.from_public_key_pem cert_pem_text = Except.error msg)
    (hpem : xops.parse_x509_pem cert_pem_bytes = some pem)
    (hcert : xops.parse_x509_certificate pem.contents = some c)
    (hkey : kops.from_public_key_der (xops.public_key_raw c) = Except.ok k) :
    new_verification_key kops cert_pem_text =
      Except.error (SigstoreError.InvalidKeyFormat msg)
    ∧ extract_public_key_from_pem_cert xops cert_pem_bytes =
        Except.ok (xops.public_key_raw c)
    ∧ new_verification_key_from_public_key_der kops (xops.public_key_raw c) =
        Except.ok k := by
  refine ⟨?_, ?_, ?_⟩
  · simp [new_verification_key, hreject]
  · simp [extract_public_key_from_pem_cert, hpem, hcert]
  · simp [new_verification_key_from_public_key_der, hkey]

/-- C10 witness: a concrete certificate PEM is rejected by the direct key
loader while the extract-then-load-DER route recovers the embedded key. -/
theorem C10_witness :
    new_verification_key kopsCert "PEM CERTIFICATE" =
      Except.error (SigstoreError.InvalidKeyFormat "not an SPKI")
    ∧ extract_public_key_from_pem_cert xopsEval [1] =
        Except.ok (xopsEval.public_key_raw 5)
    ∧ new_verification_key_from_public_key_der kopsCert (xopsEval.public_key_raw 5) =
        Except.ok 3 :=
  C10_cert_pem_rejected_by_key_loader kopsCert xopsEval "PEM CERTIFICATE" [1]
    "not an SPKI" ⟨[2]⟩ 5 3 (by decide) (by decide) (by decide) (by decide)

/-- C9: whenever the trust decision succeeds, the integrated time lies
within the validity window, so the window is well-formed (not_before is at
most not_after); a certificate whose not_before exceeds its not_after is
rejected for every integrated time and current time. -/
theorem C9_success_implies_window (c : X509Certificate)
    (ca : SubjectPublicKeyInfo) (it : Int) (now : Int) :
    (verify_certificate_can_be_trusted c ca it now = Except.ok () →
       (c.validity.not_before ≤ it ∧ it ≤ c.validity.not_after
        ∧ c.validity.not_before ≤ c.validity.not_after))
    ∧ (c.validity.not_after < c.validity.not_before →
       verify_certificate_can_be_trusted c ca it now ≠ Except.ok ()) := by
  constructor
  · intro hok
    have h := (verify_certificate_can_be_trusted_ok_iff c ca it now).mp hok
    have hw := (verify_certificate_expiration_ok_iff c it).mp h.2.2.2.2
    exact ⟨hw.1, hw.2, by omega⟩
  · intro hlt hok
    have h := (verify_certificate_can_be_trusted_ok_iff c ca it now).mp hok
    have hw := (verify_certificate_expiration_ok_iff c it).mp h.2.2.2.2
    omega

/-- C9 witness: the accepting run on the concrete certificate yields the
bounds not_before at most 5 at most not_after. -/
theorem C9_witness :
    certOk.validity.not_before ≤ 5 ∧ 5 ≤ certOk.validity.not_after
      ∧ certOk.validity.not_before ≤ certOk.validity.not_after :=
  (C9_success_implies_window certOk [] 5 7).1 (by decide)

end Sigstore
